import Mathlib

/-!
Verification of the tailnumberlookup data-sync pipeline.

Shallow embedding of the Python sources:
  backend/sync/import_to_db.py      (namespace import_to_db)
  backend/sync/download_faa_data.py (namespace download_faa_data)
  backend/sync/sync_faa_data.py     (namespace sync_faa_data)
  backend/api/database.py           (namespace api_database)

Python strings are embedded as `List Char`; `str.strip`, `str.upper`,
slicing and `int()` are modelled by the helpers in namespace `py` below.
-/

namespace py

/-- The whitespace class stripped by Python `str.strip()` (ASCII portion;
the FAA text files are ASCII). -/
def is_space (c : Char) : Bool :=
  c = ' ' || c = '\t' || c = '\n' || c = '\r' || c = '\x0b' || c = '\x0c'

/-- Python `str.upper()` on one character (ASCII portion). -/
def upper_char (c : Char) : Char :=
  if 'a' ≤ c ∧ c ≤ 'z' then Char.ofNat (c.toNat - 32) else c

/-- Python `str.upper()` (ASCII portion). -/
def upper (s : List Char) : List Char :=
  s.map upper_char

/-- Python `str.strip()`: remove leading and trailing whitespace. -/
def strip (s : List Char) : List Char :=
  (((s.dropWhile is_space).reverse).dropWhile is_space).reverse

/-- Python `int(s)` on a string with no surrounding whitespace: an optional
sign followed by at least one ASCII digit parses to an integer, anything
else raises `ValueError`.  (Python additionally allows underscore digit
grouping and non-ASCII digits; the FAA numeric fields contain neither.) -/
def int_of_string (s : List Char) : Except String Int :=
  let core : List Char → Except String Nat := fun ds =>
    if ds ≠ [] ∧ ds.all Char.isDigit then
      .ok (ds.foldl (fun acc c => 10 * acc + (c.toNat - 48)) 0)
    else
      .error "ValueError"
  match s with
  | '-' :: rest => (core rest).map (fun n => -(n : Int))
  | '+' :: rest => (core rest).map (fun n => (n : Int))
  | _ => (core s).map (fun n => (n : Int))

end py

namespace api_database

/-- The tail-number normalization performed by
`get_aircraft_by_tail_number` (backend/api/database.py lines 38-48):
`strip().upper()`, drop one leading `'N'`, `strip()`, cap at 5 chars. -/
def normalize_tail_number (x : List Char) : List Char :=
  let t1 := py.upper (py.strip x)
  let t2 := if t1.head? = some 'N' then t1.tail else t1
  (py.strip t2).take 5

end api_database

namespace py

/-- The chunked read loop shared by both `calculate_md5` functions:
`file.read(n)` until an empty read.  (With `n = 0` Python's first read
returns `b""` immediately and the loop body never runs.) -/
def read_chunks (n : Nat) (file : List Nat) : List (List Nat) :=
  if _h : n = 0 ∨ file = [] then [] else file.take n :: read_chunks n (file.drop n)
termination_by file.length
decreasing_by
  rw [List.length_drop]
  have h1 : ¬n = 0 ∧ ¬file = [] := by tauto
  have h2 : 0 < file.length := List.length_pos.mpr h1.2
  omega

end py

namespace download_faa_data

/-- `calculate_md5` (backend/sync/download_faa_data.py lines 33-39): feeds
the file to `hashlib.md5` in 8192-byte chunks.  The `hashlib.md5` object
is modelled by the byte stream it has absorbed: `update` concatenates the
chunk onto the stream, and `hexdigest` is a fixed function of the absorbed
stream, so two calls returning equal absorbed streams return equal
digests (and conversely for the injective-on-inputs-at-hand comparison the
pipeline performs). -/
def calculate_md5 (file : List Nat) : List Nat :=
  (py.read_chunks 8192 file).flatten

/-- `check_and_update_file` (lines 78-106).  Inputs: the download outcome
(`none` = `download_file` exhausted its retries) and the existing archive
(`none` = `zip_path` does not exist).  Output:
`((update_happened, download_succeeded), archive after, temp file after)`.
(Whether a partial temp file remains after a failed download is not
modelled; no claim depends on it.) -/
def check_and_update_file (downloaded : Option (List Nat))
    (zip_file : Option (List Nat)) :
    (Bool × Bool) × Option (List Nat) × Option (List Nat) :=
  match downloaded with
  | none => ((false, false), zip_file, none)
  | some temp =>
    match zip_file with
    | some original =>
      if calculate_md5 original = calculate_md5 temp then
        ((false, true), some original, none)
      else
        ((true, true), some temp, none)
    | none => ((true, true), some temp, none)

/-- `download_and_extract_faa_data` (lines 120-148).  Additional input:
whether the extraction directory exists.  Output:
`((update_happened, success), archive after, whether extract_zip ran)`. -/
def download_and_extract_faa_data (downloaded : Option (List Nat))
    (zip_file : Option (List Nat)) (extract_path_exists : Bool) :
    (Bool × Bool) × Option (List Nat) × Bool :=
  let r := check_and_update_file downloaded zip_file
  let update_happened := r.1.1
  let download_succeeded := r.1.2
  if download_succeeded ∧ update_happened then ((true, true), r.2.1, true)
  else if download_succeeded then ((false, true), r.2.1, !extract_path_exists)
  else ((false, false), r.2.1, false)

end download_faa_data

namespace import_to_db

/-- `truncate_string` (backend/sync/import_to_db.py lines 14-18):
`if not value: return None; return value[:max_length].strip() or None`. -/
def truncate_string (value : Option (List Char)) (max_length : Nat) :
    Option (List Char) :=
  match value with
  | none => none
  | some v =>
    if v = [] then none
    else
      let t := py.strip (v.take max_length)
      if t = [] then none else some t

/-- `calculate_md5` (lines 21-27): same digest, 4096-byte chunks (see
`download_faa_data.calculate_md5` for the `hashlib.md5` model). -/
def calculate_md5 (file : List Nat) : List Nat :=
  (py.read_chunks 4096 file).flatten

/-- One `file_metadata` row: `file_create_date` (the stored mtime; the
`datetime.isoformat` round-trip through the database is exact, so the
stored string is compared as the timestamp value itself) and
`file_md5sum`. -/
structure FileMeta where
  file_create_date : Nat
  file_md5sum : List Nat
deriving DecidableEq

/-- The externally visible database/loader events of one
`load_data_if_changed` step, in execution order. -/
inductive Ev
  | meta_insert
  | meta_update
  | commit
  | loader_run
  | loader_done
deriving DecidableEq

/-- `has_file_changed` (lines 30-68).  Inputs: whether `file_path`
exists, the file's current mtime and contents, and the stored
`file_metadata` row for this name (`none` = no row).  Output: the
returned bool, the row afterwards, and the emitted events: the UPDATE
(line 57) or INSERT (line 62) followed by the `connection.commit()` at
line 67 — the early returns at lines 37 and 53 emit nothing. -/
def has_file_changed (path_exists : Bool) (file_mtime : Nat)
    (file_contents : List Nat) (stored : Option FileMeta) :
    Bool × Option FileMeta × List Ev :=
  if !path_exists then (false, stored, [])
  else
    let file_md5sum := calculate_md5 file_contents
    match stored with
    | some db =>
      if db.file_create_date = file_mtime ∧ db.file_md5sum = file_md5sum then
        (false, some db, [])
      else
        (true, some ⟨file_mtime, file_md5sum⟩, [.meta_update, .commit])
    | none => (true, some ⟨file_mtime, file_md5sum⟩, [.meta_insert, .commit])

/-- `int(x.strip() or 0)`, the integer-field normalization of the model
and engine loaders (lines 99-102, 139-140): an empty-after-strip field
becomes `int(0) = 0`; a non-empty field goes to `int()`, which raises
`ValueError` on non-numeric input. -/
def int_or_zero (s : List Char) : Except String Int :=
  let t := py.strip s
  if t = [] then .ok 0 else py.int_of_string t

/-- `int(x.strip() or 0) if x.strip() else None`, the `year_mfr`
normalization of the aircraft loader (line 198). -/
def parse_year_mfr (s : List Char) : Except String (Option Int) :=
  let t := py.strip s
  if t = [] then .ok none else (py.int_of_string t).map some

/-- `parse_date` (lines 152-167): `YYYYMMDD` to `YYYY-MM-DD`.  The
`try/except` guards string slicing, which never raises, so only the
length test decides the outcome. -/
def parse_date (date_str : Option (List Char)) : Option (List Char) :=
  match date_str with
  | none => none
  | some s =>
    if py.strip s = [] then none
    else
      let t := py.strip s
      if t.length = 8 then
        some (t.take 4 ++ '-' :: ((t.drop 4).take 2) ++ '-' :: ((t.drop 6).take 2))
      else none

/-- A `csv.DictReader` row: `row.get(k, '')` modelled as a total lookup
defaulting to the empty string. -/
def Row := String → List Char

/-- One row of the `aircraft_model` table (INSERT at lines 84-105). -/
structure ModelRow where
  model_code : List Char
  manufacturer_name : Option (List Char)
  model_name : Option (List Char)
  type_aircraft : Option (List Char)
  type_engine : Option (List Char)
  aircraft_category_code : Option (List Char)
  builder_certification_code : Option (List Char)
  number_of_engines : Int
  number_of_seats : Int
  aircraft_weight_category : Option (List Char)
  aircraft_cruising_speed : Int
  tc_data_sheet : Option (List Char)
  tc_data_holder : Option (List Char)
deriving DecidableEq

/-- One row of the `engine` table (INSERT at lines 129-141). -/
structure EngineRow where
  engine_code : List Char
  manufacturer_name : Option (List Char)
  engine_model_name : Option (List Char)
  type_engine : Option (List Char)
  horsepower : Int
  pounds_of_thrust : Int
deriving DecidableEq

/-- One row of the `aircraft` table (INSERT at lines 183-228). -/
structure AircraftRow where
  n_number : List Char
  serial_number : Option (List Char)
  mfr_model_code : Option (List Char)
  engine_mfr_model_code : Option (List Char)
  year_mfr : Option Int
  type_registrant : Option (List Char)
  registrant_name : Option (List Char)
  street1 : Option (List Char)
  street2 : Option (List Char)
  city : Option (List Char)
  state : Option (List Char)
  zip_code : Option (List Char)
  registrant_region : Option (List Char)
  county_mail_code : Option (List Char)
  country_mail_code : Option (List Char)
  last_activity_date : Option (List Char)
  cert_issue_date : Option (List Char)
  cert_requested : Option (List Char)
  type_aircraft : Option (List Char)
  type_engine : Option (List Char)
  status_code : Option (List Char)
  mode_s_code : Option (List Char)
  fractional_ownership : Option (List Char)
  airworthiness_date : Option (List Char)
  other_name_1 : Option (List Char)
  other_name_2 : Option (List Char)
  other_name_3 : Option (List Char)
  other_name_4 : Option (List Char)
  other_name_5 : Option (List Char)
  expiration_date : Option (List Char)
  unique_id : Option (List Char)
  kit_mfr : Option (List Char)
  kit_model_code : Option (List Char)
  mode_s_code_hex : Option (List Char)
deriving DecidableEq

/-- One iteration of the `load_aircraft_model_data` loop (lines 79-106):
`continue` when the normalized `CODE` is falsy, otherwise build the
INSERT tuple; an uncaught `ValueError` from `int()` aborts the loader. -/
def process_model_row (row : Row) : Except String (Option ModelRow) :=
  match truncate_string (some (row "CODE")) 7 with
  | none => .ok none
  | some code => do
    let no_eng ← int_or_zero (row "NO-ENG")
    let no_seats ← int_or_zero (row "NO-SEATS")
    let speed ← int_or_zero (row "SPEED")
    .ok (some {
      model_code := code
      manufacturer_name := truncate_string (some (row "MFR")) 30
      model_name := truncate_string (some (row "MODEL")) 20
      type_aircraft := truncate_string (some (row "TYPE-ACFT")) 1
      type_engine := truncate_string (some (row "TYPE-ENG")) 2
      aircraft_category_code := truncate_string (some (row "AC-CAT")) 1
      builder_certification_code := truncate_string (some (row "BUILD-CERT-IND")) 1
      number_of_engines := no_eng
      number_of_seats := no_seats
      aircraft_weight_category := truncate_string (some (row "AC-WEIGHT")) 7
      aircraft_cruising_speed := speed
      tc_data_sheet := truncate_string (some (row "TC-DATA-SHEET")) 15
      tc_data_holder := truncate_string (some (row "TC-DATA-HOLDER")) 50 })

/-- One iteration of the `load_engine_data` loop (lines 124-141). -/
def process_engine_row (row : Row) : Except String (Option EngineRow) :=
  match truncate_string (some (row "CODE")) 5 with
  | none => .ok none
  | some code => do
    let horsepower ← int_or_zero (row "HORSEPOWER")
    let thrust ← int_or_zero (row "THRUST")
    .ok (some {
      engine_code := code
      manufacturer_name := truncate_string (some (row "MFR")) 50
      engine_model_name := truncate_string (some (row "MODEL")) 13
      type_engine := truncate_string (some (row "TYPE")) 2
      horsepower := horsepower
      pounds_of_thrust := thrust })

/-- One iteration of the `load_aircraft_data` loop (lines 178-228).  The
key of `' KIT MODEL'` carries its leading space exactly as in the
source. -/
def process_aircraft_row (row : Row) : Except String (Option AircraftRow) :=
  match truncate_string (some (row "N-NUMBER")) 5 with
  | none => .ok none
  | some n_number => do
    let year ← parse_year_mfr (row "YEAR MFR")
    .ok (some {
      n_number := n_number
      serial_number := truncate_string (some (row "SERIAL NUMBER")) 30
      mfr_model_code := truncate_string (some (row "MFR MDL CODE")) 7
      engine_mfr_model_code := truncate_string (some (row "ENG MFR MDL")) 5
      year_mfr := year
      type_registrant := truncate_string (some (row "TYPE REGISTRANT")) 1
      registrant_name := truncate_string (some (row "NAME")) 50
      street1 := truncate_string (some (row "STREET")) 33
      street2 := truncate_string (some (row "STREET2")) 33
      city := truncate_string (some (row "CITY")) 18
      state := truncate_string (some (row "STATE")) 2
      zip_code := truncate_string (some (row "ZIP CODE")) 10
      registrant_region := truncate_string (some (row "REGION")) 1
      county_mail_code := truncate_string (some (row "COUNTY")) 3
      country_mail_code := truncate_string (some (row "COUNTRY")) 2
      last_activity_date := parse_date (some (row "LAST ACTION DATE"))
      cert_issue_date := parse_date (some (row "CERT ISSUE DATE"))
      cert_requested := truncate_string (some (row "CERTIFICATION")) 10
      type_aircraft := truncate_string (some (row "TYPE AIRCRAFT")) 1
      type_engine := truncate_string (some (row "TYPE ENGINE")) 2
      status_code := truncate_string (some (row "STATUS CODE")) 2
      mode_s_code := truncate_string (some (row "MODE S CODE")) 8
      fractional_ownership := truncate_string (some (row "FRACT OWNER")) 1
      airworthiness_date := parse_date (some (row "AIR WORTH DATE"))
      other_name_1 := truncate_string (some (row "OTHER NAMES(1)")) 50
      other_name_2 := truncate_string (some (row "OTHER NAMES(2)")) 50
      other_name_3 := truncate_string (some (row "OTHER NAMES(3)")) 50
      other_name_4 := truncate_string (some (row "OTHER NAMES(4)")) 50
      other_name_5 := truncate_string (some (row "OTHER NAMES(5)")) 50
      expiration_date := parse_date (some (row "EXPIRATION DATE"))
      unique_id := truncate_string (some (row "UNIQUE ID")) 8
      kit_mfr := truncate_string (some (row "KIT MFR")) 30
      kit_model_code := truncate_string (some (row " KIT MODEL")) 20
      mode_s_code_hex := truncate_string (some (row "MODE S CODE HEX")) 10 })

/-- The shared loop shape of the three loaders: process the rows in file
order, collecting the INSERTed rows; a raised `ValueError` propagates out
of the loader (the batch `commit` calls affect only when already-executed
INSERTs become durable, not which rows are written). -/
def load_rows {β} (process : Row → Except String (Option β)) :
    List Row → Except String (List β)
  | [] => .ok []
  | r :: rest => do
    let x ← process r
    let xs ← load_rows process rest
    match x with
    | none => pure xs
    | some b => pure (b :: xs)

/-- `load_aircraft_model_data` (lines 71-113), as the list of rows
INSERTed into `aircraft_model`. -/
def load_aircraft_model_data (rows : List Row) : Except String (List ModelRow) :=
  load_rows process_model_row rows

/-- `load_engine_data` (lines 116-149), as the list of rows INSERTed
into `engine`. -/
def load_engine_data (rows : List Row) : Except String (List EngineRow) :=
  load_rows process_engine_row rows

/-- `load_aircraft_data` (lines 170-236), as the list of rows INSERTed
into `aircraft`. -/
def load_aircraft_data (rows : List Row) : Except String (List AircraftRow) :=
  load_rows process_aircraft_row rows

/-- `load_data_if_changed` (lines 239-252): `has_file_changed` first —
including its metadata write and commit — then, only if it returned true,
the loader.  `loader_ok = false` models a crash while the loader runs. -/
def load_data_if_changed (path_exists : Bool) (file_mtime : Nat)
    (file_contents : List Nat) (stored : Option FileMeta) (loader_ok : Bool) :
    Except String Bool × Option FileMeta × List Ev :=
  let r := has_file_changed path_exists file_mtime file_contents stored
  let changed := r.1
  let st := r.2.1
  let evs := r.2.2
  if changed then
    if loader_ok then (.ok true, st, evs ++ [.loader_run, .loader_done])
    else (.error "loader crashed", st, evs ++ [.loader_run])
  else (.ok false, st, evs)

end import_to_db

namespace sync_faa_data

/-- The parameter list of `import_to_db.import_faa_data` (line 255:
`def import_faa_data() -> None`): no parameters. -/
def import_faa_data_params : List String := []

/-- Python's keyword-argument binding at a call site: a keyword that does
not name a declared parameter raises `TypeError` before the callee's body
runs. -/
def bind_kwargs (params : List String) (kwargs : List String) :
    Except String Unit :=
  if kwargs.all (fun k => params.contains k) then .ok () else .error "TypeError"

/-- `main` (backend/sync/sync_faa_data.py lines 21-54), as the process
exit code.  Inputs: the `(update_happened, download_success)` pair from
the fetcher and the outcome the body of `import_faa_data` would have if
it were entered (the call `import_faa_data(force=False)` at line 47 must
first bind the `force` keyword).  The `try/except` at lines 45-54 turns
any raised exception into `sys.exit(1)`. -/
def main (download_result : Bool × Bool) (import_outcome : Except String Unit) :
    Nat :=
  if !download_result.2 then 1
  else
    match bind_kwargs import_faa_data_params ["force"] with
    | .error _ => 1
    | .ok _ =>
      match import_outcome with
      | .ok _ => 0
      | .error _ => 1

end sync_faa_data

-- ===================== theorems =====================

theorem py.toNat_ofNat_valid (n : Nat) (h : n < 55296) : (Char.ofNat n).toNat = n := by
  have hv : Nat.isValidChar n := Or.inl h
  simp [Char.ofNat, hv, Char.ofNatAux, Char.toNat, UInt32.toNat]

theorem py.char_eq_iff_toNat (a b : Char) : a = b ↔ a.toNat = b.toNat :=
  ⟨fun h => h ▸ rfl, fun h => Char.ext (UInt32.ext h)⟩

theorem py.char_le_iff (a b : Char) : a ≤ b ↔ a.toNat ≤ b.toNat := Iff.rfl

theorem py.lower_iff (c : Char) :
    ('a' ≤ c ∧ c ≤ 'z') ↔ (97 ≤ c.toNat ∧ c.toNat ≤ 122) := by
  rw [py.char_le_iff, py.char_le_iff]
  have ha : ('a').toNat = 97 := rfl
  have hz : ('z').toNat = 122 := rfl
  rw [ha, hz]

theorem py.is_space_iff (c : Char) :
    py.is_space c = true ↔ (c.toNat = 32 ∨ c.toNat = 9 ∨ c.toNat = 10 ∨
      c.toNat = 13 ∨ c.toNat = 11 ∨ c.toNat = 12) := by
  simp [py.is_space, py.char_eq_iff_toNat]
  tauto

theorem py.upper_char_eq_of_lower (c : Char) (h : 'a' ≤ c ∧ c ≤ 'z') :
    py.upper_char c = Char.ofNat (c.toNat - 32) := if_pos h

theorem py.upper_char_eq_of_not_lower (c : Char) (h : ¬('a' ≤ c ∧ c ≤ 'z')) :
    py.upper_char c = c := if_neg h

theorem py.upper_char_idem (c : Char) :
    py.upper_char (py.upper_char c) = py.upper_char c := by
  by_cases h : 'a' ≤ c ∧ c ≤ 'z'
  · rw [py.upper_char_eq_of_lower c h]
    have hb := (py.lower_iff c).mp h
    have ht : (Char.ofNat (c.toNat - 32)).toNat = c.toNat - 32 :=
      py.toNat_ofNat_valid _ (by omega)
    apply py.upper_char_eq_of_not_lower
    rw [py.lower_iff, ht]
    omega
  · rw [py.upper_char_eq_of_not_lower c h]
    exact py.upper_char_eq_of_not_lower c h

theorem py.head_dropWhile {α} (p : α → Bool) (l : List α) (c : α)
    (h : (l.dropWhile p).head? = some c) : p c = false := by
  induction l with
  | nil => simp [List.dropWhile] at h
  | cons a t ih =>
    rw [List.dropWhile] at h
    by_cases hp : p a
    · rw [hp] at h; simp at h; exact ih h
    · simp [hp] at h; subst h; simpa using hp

theorem py.dropWhile_eq_self {α} (p : α → Bool) (l : List α)
    (h : ∀ c, l.head? = some c → p c = false) : l.dropWhile p = l := by
  cases l with
  | nil => rfl
  | cons a t =>
    rw [List.dropWhile]
    have := h a rfl
    simp [this]

theorem py.mem_dropWhile {α} (p : α → Bool) (l : List α) (a : α)
    (h : a ∈ l.dropWhile p) : a ∈ l :=
  (List.dropWhile_suffix p).mem h

theorem py.getLast?_dropWhile {α} (p : α → Bool) (l : List α)
    (h : l.dropWhile p ≠ []) : (l.dropWhile p).getLast? = l.getLast? := by
  induction l with
  | nil => simp at h
  | cons a t ih =>
    rw [List.dropWhile] at h ⊢
    by_cases hp : p a
    · rw [hp] at h ⊢
      simp only [cond_true] at h ⊢
      rw [ih h, List.getLast?_cons]
      cases t with
      | nil => simp [List.dropWhile] at h
      | cons b u => rfl
    · simp [hp]

theorem py.mem_strip (l : List Char) (a : Char) (h : a ∈ py.strip l) : a ∈ l := by
  unfold py.strip at h
  rw [List.mem_reverse] at h
  have := py.mem_dropWhile _ _ _ h
  rw [List.mem_reverse] at this
  exact py.mem_dropWhile _ _ _ this

theorem py.strip_head (l : List Char) (c : Char) (h : (py.strip l).head? = some c) :
    py.is_space c = false := by
  unfold py.strip at h
  rw [List.head?_reverse] at h
  have hne : ((l.dropWhile py.is_space).reverse).dropWhile py.is_space ≠ [] := by
    intro he
    rw [he] at h
    simp at h
  rw [py.getLast?_dropWhile _ _ hne, List.getLast?_reverse] at h
  exact py.head_dropWhile py.is_space l c h

theorem py.strip_getLast (l : List Char) (c : Char)
    (h : (py.strip l).getLast? = some c) : py.is_space c = false := by
  unfold py.strip at h
  rw [List.getLast?_reverse] at h
  exact py.head_dropWhile _ _ _ h

theorem py.strip_eq_self (l : List Char)
    (h1 : ∀ c, l.head? = some c → py.is_space c = false)
    (h2 : ∀ c, l.getLast? = some c → py.is_space c = false) : py.strip l = l := by
  unfold py.strip
  rw [py.dropWhile_eq_self _ _ h1]
  rw [py.dropWhile_eq_self, List.reverse_reverse]
  intro c hc
  rw [List.head?_reverse] at hc
  exact h2 c hc

theorem py.mem_take {α} (n : Nat) (l : List α) (a : α) (h : a ∈ l.take n) : a ∈ l :=
  (List.take_sublist n l).mem h

theorem py.mem_tail_cases {α} (l : List α) (a : α) (h : a ∈ l.tail) : a ∈ l := by
  cases l with
  | nil => simp at h
  | cons b t => exact List.mem_cons_of_mem b h

theorem api_database.normalize_chars_upper (x : List Char) (c : Char)
    (h : c ∈ api_database.normalize_tail_number x) : py.upper_char c = c := by
  unfold api_database.normalize_tail_number at h
  have h1 : c ∈ py.strip (if (py.upper (py.strip x)).head? = some 'N'
      then (py.upper (py.strip x)).tail else (py.upper (py.strip x))) :=
    py.mem_take _ _ _ h
  have h2 := py.mem_strip _ _ h1
  have h3 : c ∈ py.upper (py.strip x) := by
    by_cases hg : (py.upper (py.strip x)).head? = some 'N'
    · rw [if_pos hg] at h2
      exact py.mem_tail_cases _ _ h2
    · rw [if_neg hg] at h2
      exact h2
  obtain ⟨d, _, hd⟩ := List.mem_map.mp h3
  rw [← hd]
  exact py.upper_char_idem d

theorem py.upper_eq_self (l : List Char) (h : ∀ c ∈ l, py.upper_char c = c) :
    py.upper l = l := by
  unfold py.upper
  induction l with
  | nil => rfl
  | cons a t ih =>
    rw [List.map_cons, h a (List.mem_cons_self a t),
      ih (fun c hc => h c (List.mem_cons_of_mem a hc))]

theorem api_database.normalize_head_not_space (x : List Char) (c : Char)
    (h : (api_database.normalize_tail_number x).head? = some c) :
    py.is_space c = false := by
  unfold api_database.normalize_tail_number at h
  rw [List.head?_take] at h
  simp only [OfNat.ofNat_ne_zero, if_false] at h
  exact py.strip_head _ _ h

theorem api_database.normalize_length_le (x : List Char) :
    (api_database.normalize_tail_number x).length ≤ 5 := by
  unfold api_database.normalize_tail_number
  rw [List.length_take]
  exact min_le_left _ _

/-- C5 (counterexample): the lookup's tail-number normalization is not
idempotent as claimed: for the input `"NN1234"` one leading `'N'` is
dropped, leaving `"N1234"`, and normalizing again drops another,
giving `"1234"`. -/
theorem c5_normalize_not_idempotent :
    api_database.normalize_tail_number
        (api_database.normalize_tail_number "NN1234".toList) ≠
      api_database.normalize_tail_number "NN1234".toList := by
  decide

/-- C5 (amended): the normalization maps `"N538CD"`, `"538cd"` and
`"  n538CD "` to the same value `"538CD"` (case/prefix-insensitivity on
the spec's examples), and `normalize (normalize x) = normalize x` holds
for every `x` whose normalized form neither begins with `'N'` nor ends
with a whitespace character — but not in general (see the
counterexample, where the normalized form begins with `'N'`). -/
theorem c5_normalize_amended :
    (api_database.normalize_tail_number "N538CD".toList = "538CD".toList ∧
     api_database.normalize_tail_number "538cd".toList = "538CD".toList ∧
     api_database.normalize_tail_number "  n538CD ".toList = "538CD".toList) ∧
    (∀ x : List Char,
      (api_database.normalize_tail_number x).head? ≠ some 'N' →
      (∀ c, (api_database.normalize_tail_number x).getLast? = some c →
        py.is_space c = false) →
      api_database.normalize_tail_number (api_database.normalize_tail_number x) =
        api_database.normalize_tail_number x) := by
  constructor
  · exact ⟨by decide, by decide, by decide⟩
  · intro x hN hW
    have hstrip : py.strip (api_database.normalize_tail_number x) =
        api_database.normalize_tail_number x :=
      py.strip_eq_self _ (fun c hc => api_database.normalize_head_not_space x c hc) hW
    have hupper : py.upper (api_database.normalize_tail_number x) =
        api_database.normalize_tail_number x :=
      py.upper_eq_self _ (fun c hc => api_database.normalize_chars_upper x c hc)
    conv_lhs => rw [api_database.normalize_tail_number]
    rw [hstrip, hupper]
    show (py.strip (if (api_database.normalize_tail_number x).head? = some 'N'
        then (api_database.normalize_tail_number x).tail
        else (api_database.normalize_tail_number x))).take 5 =
      api_database.normalize_tail_number x
    rw [if_neg hN, hstrip]
    exact List.take_of_length_le (api_database.normalize_length_le x)

/-- C5 (witness): the amended idempotence applied at `"N538CD"`, whose
normalized form `"538CD"` neither begins with `'N'` nor ends with
whitespace. -/
theorem c5_normalize_amended_witness :
    api_database.normalize_tail_number
        (api_database.normalize_tail_number "N538CD".toList) =
      api_database.normalize_tail_number "N538CD".toList :=
  c5_normalize_amended.2 "N538CD".toList (by decide)
    (by intro c hc; rw [show (api_database.normalize_tail_number "N538CD".toList).getLast? = some 'D' by decide] at hc; cases hc; decide)

/-- C1 (code bug): whenever the download step succeeds, `main` exits 1,
never 0 — the call `import_faa_data(force=False)` raises `TypeError`
because `import_faa_data()` declares no parameters, and the orchestrator's
`except` turns it into `sys.exit(1)`.  This holds even when nothing
changed and even when the import body itself would have succeeded; a
failed download also exits 1. -/
theorem c1_sync_main_never_exits_zero :
    ∀ (update_happened : Bool) (import_outcome : Except String Unit),
      sync_faa_data.main (update_happened, true) import_outcome = 1 ∧
      sync_faa_data.main (update_happened, false) import_outcome = 1 := by
  intro u imp
  exact ⟨rfl, rfl⟩

/-- C2 (code bug): in a run where the file changed (here: no stored
metadata row, and also the stored-row-differs case) and the loader then
crashes, the `file_metadata` row has already been set to the current
mtime/checksum and committed — the event trace is INSERT/UPDATE, commit,
then the loader — so a crash during a loader does not leave the
metadata at its pre-run value, contradicting the claimed
load-then-record order. -/
theorem c2_metadata_committed_before_loader :
    ∀ (mtime : Nat) (contents : List Nat),
      (import_to_db.load_data_if_changed true mtime contents none false =
        (.error "loader crashed",
         some ⟨mtime, import_to_db.calculate_md5 contents⟩,
         [.meta_insert, .commit, .loader_run])) ∧
      (∀ db : import_to_db.FileMeta,
        import_to_db.load_data_if_changed true mtime contents (some db) false =
          if db.file_create_date = mtime ∧
              db.file_md5sum = import_to_db.calculate_md5 contents then
            (.ok false, some db, [])
          else
            (.error "loader crashed",
             some ⟨mtime, import_to_db.calculate_md5 contents⟩,
             [.meta_update, .commit, .loader_run])) := by
  intro mtime contents
  constructor
  · rfl
  · intro db
    by_cases h : db.file_create_date = mtime ∧
        db.file_md5sum = import_to_db.calculate_md5 contents
    · rw [if_pos h]
      simp only [import_to_db.load_data_if_changed, import_to_db.has_file_changed,
        Bool.not_true, Bool.false_eq_true, if_false, if_pos h]
    · rw [if_neg h]
      simp only [import_to_db.load_data_if_changed, import_to_db.has_file_changed,
        Bool.not_true, Bool.false_eq_true, if_false, if_neg h]
      rfl

/-- C3 (counterexample): `parse_date` checks only the trimmed length,
not digits: the 8-character non-digit string `"abcdefgh"` yields the
garbled value `"abcd-ef-gh"`, where the claim requires `None`. -/
theorem c3_parse_date_counterexample :
    import_to_db.parse_date (some "abcdefgh".toList) =
      some "abcd-ef-gh".toList := by
  decide

/-- C3 (amended): `parse_date` maps any string whose trimmed value has
exactly 8 characters — digits or not — to the dash-separated slices
`t[0:4]-t[4:6]-t[6:8]` (for 8-digit inputs this is the claimed
`YYYY-MM-DD` form), and maps `None` and any value whose trimmed length
is not 8 (including `"abc"` and `"2023"`) to `None`. -/
theorem c3_parse_date_amended :
    (∀ s : List Char, (py.strip s).length = 8 →
      import_to_db.parse_date (some s) =
        some ((py.strip s).take 4 ++
          '-' :: ((py.strip s).drop 4).take 2 ++
          '-' :: ((py.strip s).drop 6).take 2)) ∧
    (∀ s : List Char, (py.strip s).length ≠ 8 →
      import_to_db.parse_date (some s) = none) ∧
    import_to_db.parse_date none = none := by
  refine ⟨?_, ?_, rfl⟩
  · intro s h
    have hne : py.strip s ≠ [] := by
      intro he
      rw [he] at h
      simp at h
    simp only [import_to_db.parse_date, if_neg hne, if_pos h]
  · intro s h
    by_cases hne : py.strip s = []
    · simp only [import_to_db.parse_date, if_pos hne]
    · simp only [import_to_db.parse_date, if_neg hne, if_neg h]

/-- C3 (witness): the amended behaviour at the spec's own examples:
`"20230615"` formats to `"2023-06-15"`, `"abc"` and `"2023"` to `None`. -/
theorem c3_parse_date_amended_witness :
    import_to_db.parse_date (some "20230615".toList) = some "2023-06-15".toList ∧
    import_to_db.parse_date (some "abc".toList) = none ∧
    import_to_db.parse_date (some "2023".toList) = none :=
  ⟨(c3_parse_date_amended.1 "20230615".toList (by decide)).trans (by decide),
   c3_parse_date_amended.2.1 "abc".toList (by decide),
   c3_parse_date_amended.2.1 "2023".toList (by decide)⟩

/-- C6 (counterexample): `truncate_string` truncates first and trims
second: for the input of six spaces followed by `"abc"` with limit 5 the
first five characters are all spaces, so the stored value is `None` —
not the claimed trim-then-truncate value `"abc"`. -/
theorem c6_truncate_string_counterexample :
    import_to_db.truncate_string (some "      abc".toList) 5 = none ∧
    (py.strip "      abc".toList).take 5 = "abc".toList := by
  decide

/-- C6 (amended): the stored value equals the input first truncated to
the destination length and then trimmed, with an empty result (and a
`None` or empty input) stored as `None`; consequently a stored value is
never the empty string, but non-whitespace content lying beyond the
first `n` characters is lost rather than preserved. -/
theorem c6_truncate_string_amended :
    (∀ (v : List Char) (n : Nat),
      import_to_db.truncate_string (some v) n =
        if py.strip (v.take n) = [] then none else some (py.strip (v.take n))) ∧
    (∀ n : Nat, import_to_db.truncate_string none n = none) ∧
    (∀ (v : List Char) (n : Nat) (t : List Char),
      import_to_db.truncate_string (some v) n = some t →
        t = py.strip (v.take n) ∧ t ≠ []) := by
  have hform : ∀ (v : List Char) (n : Nat),
      import_to_db.truncate_string (some v) n =
        if py.strip (v.take n) = [] then none else some (py.strip (v.take n)) := by
    intro v n
    by_cases hv : v = []
    · subst hv
      simp [import_to_db.truncate_string, py.strip]
    · simp only [import_to_db.truncate_string, if_neg hv]
  refine ⟨hform, fun _ => rfl, ?_⟩
  intro v n t h
  rw [hform] at h
  by_cases he : py.strip (v.take n) = []
  · rw [if_pos he] at h
    cases h
  · rw [if_neg he] at h
    cases h
    exact ⟨rfl, he⟩

/-- C6 (witness): the amended behaviour at `"  a  bc"` with limit 5:
truncate-then-trim yields `"a"`, which is non-empty. -/
theorem c6_truncate_string_amended_witness :
    import_to_db.truncate_string (some "  a  bc".toList) 5 = some ['a'] ∧
    (['a'] = py.strip ("  a  bc".toList.take 5) ∧ ['a'] ≠ []) :=
  ⟨(c6_truncate_string_amended.1 "  a  bc".toList 5).trans (by decide),
   c6_truncate_string_amended.2.2 "  a  bc".toList 5 ['a']
     ((c6_truncate_string_amended.1 "  a  bc".toList 5).trans (by decide))⟩

/-- C7 (confirmed): `has_file_changed` returns false untouched when the
path does not exist; inserts-and-returns-true when no metadata row
exists; returns false leaving the row unchanged when both stored mtime
and checksum equal the current values; and updates-and-returns-true when
either differs. -/
theorem c7_has_file_changed_cases :
    ∀ (mtime : Nat) (contents : List Nat) (stored : Option import_to_db.FileMeta),
      (import_to_db.has_file_changed false mtime contents stored =
        (false, stored, [])) ∧
      (import_to_db.has_file_changed true mtime contents none =
        (true, some ⟨mtime, import_to_db.calculate_md5 contents⟩,
         [.meta_insert, .commit])) ∧
      (∀ db : import_to_db.FileMeta,
        import_to_db.has_file_changed true mtime contents (some db) =
          if db = ⟨mtime, import_to_db.calculate_md5 contents⟩ then
            (false, some db, [])
          else
            (true, some ⟨mtime, import_to_db.calculate_md5 contents⟩,
             [.meta_update, .commit])) := by
  intro mtime contents stored
  refine ⟨rfl, rfl, ?_⟩
  intro db
  have hiff : (db.file_create_date = mtime ∧
      db.file_md5sum = import_to_db.calculate_md5 contents) ↔
      db = ⟨mtime, import_to_db.calculate_md5 contents⟩ := by
    cases db
    simp [import_to_db.FileMeta.mk.injEq]
  by_cases h : db = (⟨mtime, import_to_db.calculate_md5 contents⟩ : import_to_db.FileMeta)
  · rw [if_pos h]
    simp only [import_to_db.has_file_changed, Bool.not_true, Bool.false_eq_true,
      if_false, if_pos (hiff.mpr h)]
  · rw [if_neg h]
    simp only [import_to_db.has_file_changed, Bool.not_true, Bool.false_eq_true,
      if_false, if_neg (fun hc => h (hiff.mp hc))]

/-- C8 (confirmed): after a successful download, the fetcher's outcome is
decided by checksum comparison — no existing archive: move temp into
place, `(changed, ok) = (true, true)`; equal checksums: delete temp,
keep the archive, `(false, true)`; differing checksums: replace the
archive with temp, `(true, true)` — and `extract_zip` runs exactly when
`changed = true`, or when `changed = false` but the extraction directory
is missing. -/
theorem c8_fetcher_checksum_decision :
    ∀ (temp original : List Nat) (ext : Bool),
      (download_faa_data.check_and_update_file (some temp) none =
        ((true, true), some temp, none)) ∧
      (download_faa_data.check_and_update_file (some temp) (some original) =
        if download_faa_data.calculate_md5 original =
            download_faa_data.calculate_md5 temp then
          ((false, true), some original, none)
        else
          ((true, true), some temp, none)) ∧
      ((download_faa_data.download_and_extract_faa_data (some temp)
          (some original) ext).2.2 =
        if download_faa_data.calculate_md5 original =
            download_faa_data.calculate_md5 temp then !ext else true) ∧
      ((download_faa_data.download_and_extract_faa_data (some temp)
          none ext).2.2 = true) := by
  intro temp original ext
  by_cases h : download_faa_data.calculate_md5 original =
      download_faa_data.calculate_md5 temp
  · refine ⟨rfl, ?_, ?_, rfl⟩
    · rw [if_pos h]
      simp only [download_faa_data.check_and_update_file, if_pos h]
    · rw [if_pos h]
      simp only [download_faa_data.download_and_extract_faa_data,
        download_faa_data.check_and_update_file, if_pos h]
      rfl
  · refine ⟨rfl, ?_, ?_, rfl⟩
    · rw [if_neg h]
      simp only [download_faa_data.check_and_update_file, if_neg h]
    · rw [if_neg h]
      simp only [download_faa_data.download_and_extract_faa_data,
        download_faa_data.check_and_update_file, if_neg h]
      rfl

theorem py.read_chunks_flatten (n : Nat) (hn : n ≠ 0) (file : List Nat) :
    (py.read_chunks n file).flatten = file := by
  rw [py.read_chunks]
  by_cases h : n = 0 ∨ file = []
  · rw [dif_pos h]
    rcases h with h | h
    · exact absurd h hn
    · rw [h, List.flatten_nil]
  · rw [dif_neg h, List.flatten_cons,
      py.read_chunks_flatten n hn (file.drop n), List.take_append_drop]
termination_by file.length
decreasing_by
  rw [List.length_drop]
  have h1 : ¬n = 0 ∧ ¬file = [] := by tauto
  have h2 : 0 < file.length := List.length_pos.mpr h1.2
  omega

/-- C10 (confirmed): the fetcher's `calculate_md5` (8192-byte chunks) and
the importer's `calculate_md5` (4096-byte chunks) feed `hashlib.md5` the
same absorbed byte stream — the whole file — for every file contents, so
they return the same digest and the fetcher's change decision is
consistent with the change detector's stored checksums. -/
theorem c10_calculate_md5_consistent :
    ∀ file : List Nat,
      download_faa_data.calculate_md5 file = import_to_db.calculate_md5 file := by
  intro file
  unfold download_faa_data.calculate_md5 import_to_db.calculate_md5
  rw [py.read_chunks_flatten 8192 (by decide) file,
    py.read_chunks_flatten 4096 (by decide) file]

theorem except_bind_ok {α β : Type} (a : α) (f : α → Except String β) :
    (Except.ok a >>= f) = f a := rfl

theorem except_bind_error {α β : Type} (e : String) (f : α → Except String β) :
    ((Except.error e : Except String α) >>= f) = Except.error e := rfl

theorem import_to_db.load_rows_skip {β : Type}
    (process : import_to_db.Row → Except String (Option β))
    (r : import_to_db.Row) (h : process r = .ok none)
    (pre post : List import_to_db.Row) :
    import_to_db.load_rows process (pre ++ r :: post) =
      import_to_db.load_rows process (pre ++ post) := by
  induction pre with
  | nil =>
    rw [List.nil_append, List.nil_append]
    show (do
      let x ← process r
      let xs ← import_to_db.load_rows process post
      match x with
      | none => pure xs
      | some b => pure (b :: xs)) = import_to_db.load_rows process post
    rw [h, except_bind_ok]
    cases hrest : import_to_db.load_rows process post with
    | error e => rw [except_bind_error]
    | ok xs =>
      rw [except_bind_ok]
      rfl
  | cons a t ih =>
    rw [List.cons_append, List.cons_append]
    show (do
      let x ← process a
      let xs ← import_to_db.load_rows process (t ++ r :: post)
      match x with
      | none => pure xs
      | some b => pure (b :: xs)) = (do
      let x ← process a
      let xs ← import_to_db.load_rows process (t ++ post)
      match x with
      | none => pure xs
      | some b => pure (b :: xs))
    rw [ih]

theorem import_to_db.load_rows_mem {β : Type}
    (process : import_to_db.Row → Except String (Option β))
    (keyok : β → Prop) (hp : ∀ r b, process r = .ok (some b) → keyok b) :
    ∀ (rows : List import_to_db.Row) (out : List β),
      import_to_db.load_rows process rows = .ok out → ∀ b ∈ out, keyok b := by
  intro rows
  induction rows with
  | nil =>
    intro out h b hb
    rw [show import_to_db.load_rows process ([] : List import_to_db.Row) =
      .ok [] from rfl] at h
    cases h
    simp at hb
  | cons r rest ih =>
    intro out h b hb
    rw [show import_to_db.load_rows process (r :: rest) = (do
      let x ← process r
      let xs ← import_to_db.load_rows process rest
      match x with
      | none => pure xs
      | some b => pure (b :: xs)) from rfl] at h
    cases hr : process r with
    | error e => rw [hr, except_bind_error] at h; cases h
    | ok x =>
      rw [hr, except_bind_ok] at h
      cases hrest : import_to_db.load_rows process rest with
      | error e => rw [hrest, except_bind_error] at h; cases h
      | ok xs =>
        rw [hrest, except_bind_ok] at h
        cases x with
        | none =>
          have h2 : Except.ok (ε := String) xs = .ok out := h
          injection h2 with h3
          subst h3
          exact ih xs hrest b hb
        | some b0 =>
          have h2 : Except.ok (ε := String) (b0 :: xs) = .ok out := h
          injection h2 with h3
          subst h3
          rcases List.mem_cons.mp hb with hb | hb
          · subst hb
            exact hp r b hr
          · exact ih xs hrest b hb

theorem import_to_db.truncate_string_ne_nil (v : Option (List Char)) (n : Nat)
    (t : List Char) (h : import_to_db.truncate_string v n = some t) : t ≠ [] := by
  cases v with
  | none => cases h
  | some v =>
    simp only [import_to_db.truncate_string] at h
    by_cases hv : v = []
    · rw [if_pos hv] at h; cases h
    · rw [if_neg hv] at h
      by_cases ht : py.strip (v.take n) = []
      · rw [if_pos ht] at h; cases h
      · rw [if_neg ht] at h
        injection h with h2
        subst h2
        exact ht

theorem import_to_db.process_model_row_none (r : import_to_db.Row)
    (h : import_to_db.truncate_string (some (r "CODE")) 7 = none) :
    import_to_db.process_model_row r = .ok none := by
  unfold import_to_db.process_model_row
  rw [h]

theorem import_to_db.process_engine_row_none (r : import_to_db.Row)
    (h : import_to_db.truncate_string (some (r "CODE")) 5 = none) :
    import_to_db.process_engine_row r = .ok none := by
  unfold import_to_db.process_engine_row
  rw [h]

theorem import_to_db.process_aircraft_row_none (r : import_to_db.Row)
    (h : import_to_db.truncate_string (some (r "N-NUMBER")) 5 = none) :
    import_to_db.process_aircraft_row r = .ok none := by
  unfold import_to_db.process_aircraft_row
  rw [h]

theorem import_to_db.process_model_row_key (r : import_to_db.Row)
    (b : import_to_db.ModelRow)
    (h : import_to_db.process_model_row r = .ok (some b)) :
    b.model_code ≠ [] := by
  unfold import_to_db.process_model_row at h
  cases hk : import_to_db.truncate_string (some (r "CODE")) 7 with
  | none => rw [hk] at h; cases h
  | some code =>
    simp only [hk] at h
    cases h1 : import_to_db.int_or_zero (r "NO-ENG") with
    | error e => rw [h1, except_bind_error] at h; cases h
    | ok i1 =>
      rw [h1, except_bind_ok] at h
      cases h2 : import_to_db.int_or_zero (r "NO-SEATS") with
      | error e => rw [h2, except_bind_error] at h; cases h
      | ok i2 =>
        rw [h2, except_bind_ok] at h
        cases h3 : import_to_db.int_or_zero (r "SPEED") with
        | error e => rw [h3, except_bind_error] at h; cases h
        | ok i3 =>
          rw [h3, except_bind_ok] at h
          simp only [pure, Except.pure, Except.ok.injEq, Option.some.injEq] at h
          subst h
          exact import_to_db.truncate_string_ne_nil _ _ _ hk

theorem import_to_db.process_engine_row_key (r : import_to_db.Row)
    (b : import_to_db.EngineRow)
    (h : import_to_db.process_engine_row r = .ok (some b)) :
    b.engine_code ≠ [] := by
  unfold import_to_db.process_engine_row at h
  cases hk : import_to_db.truncate_string (some (r "CODE")) 5 with
  | none => rw [hk] at h; cases h
  | some code =>
    simp only [hk] at h
    cases h1 : import_to_db.int_or_zero (r "HORSEPOWER") with
    | error e => rw [h1, except_bind_error] at h; cases h
    | ok i1 =>
      rw [h1, except_bind_ok] at h
      cases h2 : import_to_db.int_or_zero (r "THRUST") with
      | error e => rw [h2, except_bind_error] at h; cases h
      | ok i2 =>
        rw [h2, except_bind_ok] at h
        simp only [pure, Except.pure, Except.ok.injEq, Option.some.injEq] at h
        subst h
        exact import_to_db.truncate_string_ne_nil _ _ _ hk

theorem import_to_db.process_aircraft_row_key (r : import_to_db.Row)
    (b : import_to_db.AircraftRow)
    (h : import_to_db.process_aircraft_row r = .ok (some b)) :
    b.n_number ≠ [] := by
  unfold import_to_db.process_aircraft_row at h
  cases hk : import_to_db.truncate_string (some (r "N-NUMBER")) 5 with
  | none => rw [hk] at h; cases h
  | some code =>
    simp only [hk] at h
    cases h1 : import_to_db.parse_year_mfr (r "YEAR MFR") with
    | error e => rw [h1, except_bind_error] at h; cases h
    | ok y =>
      rw [h1, except_bind_ok] at h
      simp only [pure, Except.pure, Except.ok.injEq, Option.some.injEq] at h
      subst h
      exact import_to_db.truncate_string_ne_nil _ _ _ hk

/-- C9 (confirmed): in each of the three loaders, a source record whose
key field (`CODE` / `CODE` / `N-NUMBER`) normalizes to an absent value is
skipped entirely — deleting it from the input leaves the loader's output
unchanged — and every row a loader does write has a non-empty key. -/
theorem c9_empty_key_never_written :
    (∀ (pre post : List import_to_db.Row) (r : import_to_db.Row),
      import_to_db.truncate_string (some (r "CODE")) 7 = none →
      import_to_db.load_aircraft_model_data (pre ++ r :: post) =
        import_to_db.load_aircraft_model_data (pre ++ post)) ∧
    (∀ (pre post : List import_to_db.Row) (r : import_to_db.Row),
      import_to_db.truncate_string (some (r "CODE")) 5 = none →
      import_to_db.load_engine_data (pre ++ r :: post) =
        import_to_db.load_engine_data (pre ++ post)) ∧
    (∀ (pre post : List import_to_db.Row) (r : import_to_db.Row),
      import_to_db.truncate_string (some (r "N-NUMBER")) 5 = none →
      import_to_db.load_aircraft_data (pre ++ r :: post) =
        import_to_db.load_aircraft_data (pre ++ post)) ∧
    (∀ (rows : List import_to_db.Row) (out : List import_to_db.ModelRow),
      import_to_db.load_aircraft_model_data rows = .ok out →
      ∀ b ∈ out, b.model_code ≠ []) ∧
    (∀ (rows : List import_to_db.Row) (out : List import_to_db.EngineRow),
      import_to_db.load_engine_data rows = .ok out →
      ∀ b ∈ out, b.engine_code ≠ []) ∧
    (∀ (rows : List import_to_db.Row) (out : List import_to_db.AircraftRow),
      import_to_db.load_aircraft_data rows = .ok out →
      ∀ b ∈ out, b.n_number ≠ []) := by
  refine ⟨?_, ?_, ?_, ?_, ?_, ?_⟩
  · intro pre post r h
    exact import_to_db.load_rows_skip _ r (import_to_db.process_model_row_none r h) pre post
  · intro pre post r h
    exact import_to_db.load_rows_skip _ r (import_to_db.process_engine_row_none r h) pre post
  · intro pre post r h
    exact import_to_db.load_rows_skip _ r (import_to_db.process_aircraft_row_none r h) pre post
  · exact import_to_db.load_rows_mem _ _ import_to_db.process_model_row_key
  · exact import_to_db.load_rows_mem _ _ import_to_db.process_engine_row_key
  · exact import_to_db.load_rows_mem _ _ import_to_db.process_aircraft_row_key

/-- C9 (witness): a record whose every field is a single space is
skipped by all three loaders, and the single row loaded from an all-`"1"`
record has a non-empty key in each table. -/
theorem c9_empty_key_never_written_witness :
    (import_to_db.load_aircraft_model_data [fun _ => [' ']] =
      import_to_db.load_aircraft_model_data [] ∧
     import_to_db.load_engine_data [fun _ => [' ']] =
      import_to_db.load_engine_data [] ∧
     import_to_db.load_aircraft_data [fun _ => [' ']] =
      import_to_db.load_aircraft_data []) ∧
    ((⟨['1'], some ['1'], some ['1'], some ['1'], some ['1'], some ['1'],
        some ['1'], 1, 1, some ['1'], 1, some ['1'],
        some ['1']⟩ : import_to_db.ModelRow).model_code ≠ [] ∧
     (⟨['1'], some ['1'], some ['1'], some ['1'], 1,
        1⟩ : import_to_db.EngineRow).engine_code ≠ [] ∧
     (⟨['1'], some ['1'], some ['1'], some ['1'], some 1, some ['1'],
        some ['1'], some ['1'], some ['1'], some ['1'], some ['1'],
        some ['1'], some ['1'], some ['1'], some ['1'], none, none,
        some ['1'], some ['1'], some ['1'], some ['1'], some ['1'],
        some ['1'], none, some ['1'], some ['1'], some ['1'], some ['1'],
        some ['1'], none, some ['1'], some ['1'], some ['1'],
        some ['1']⟩ : import_to_db.AircraftRow).n_number ≠ []) :=
  ⟨⟨c9_empty_key_never_written.1 [] [] (fun _ => [' ']) rfl,
    c9_empty_key_never_written.2.1 [] [] (fun _ => [' ']) rfl,
    c9_empty_key_never_written.2.2.1 [] [] (fun _ => [' ']) rfl⟩,
   c9_empty_key_never_written.2.2.2.1 [fun _ => ['1']] _ rfl _
     (List.mem_singleton.mpr rfl),
   c9_empty_key_never_written.2.2.2.2.1 [fun _ => ['1']] _ rfl _
     (List.mem_singleton.mpr rfl),
   c9_empty_key_never_written.2.2.2.2.2 [fun _ => ['1']] _ rfl _
     (List.mem_singleton.mpr rfl)⟩

/-- C4 (counterexample): a non-empty, non-numeric integer field does
abort the loader: a record with `CODE = "A1"` and `NO-ENG = "abc"` makes
`int()` raise `ValueError`, the whole aircraft-model loader aborts, and
the well-formed record after it is never processed — where the claim
requires the field to be treated as absent and the remaining rows
processed. -/
theorem c4_loader_aborts_on_non_numeric :
    import_to_db.load_aircraft_model_data
      [fun k => if k = "CODE" then ['A', '1']
                else if k = "NO-ENG" then ['a', 'b', 'c'] else [],
       fun _ => ['1']] = .error "ValueError" := by
  rfl

/-- C4 (amended): an integer field that is EMPTY after trimming is
treated as absent and does not abort: `int(x.strip() or 0)` stores 0 in
the model/engine loaders and the aircraft loader stores null for an
empty `year_mfr` (witnessed row-by-row by three all-blank-fields
records); but a NON-EMPTY non-numeric integer field goes to `int()`
unguarded, which raises `ValueError` and aborts the whole loader,
abandoning the remaining rows. -/
theorem c4_absent_int_fields_amended :
    (∀ s : List Char, py.strip s = [] → import_to_db.int_or_zero s = .ok 0) ∧
    (∀ s : List Char, py.strip s = [] →
      import_to_db.parse_year_mfr s = .ok none) ∧
    (∀ s : List Char, py.strip s ≠ [] →
      import_to_db.int_or_zero s = py.int_of_string (py.strip s)) ∧
    (∀ s : List Char, py.strip s ≠ [] →
      import_to_db.parse_year_mfr s = (py.int_of_string (py.strip s)).map some) ∧
    (import_to_db.load_aircraft_model_data [fun k => if k = "CODE" then ['M'] else []] =
      .ok [⟨['M'], none, none, none, none, none, none, 0, 0, none, 0, none, none⟩] ∧
     import_to_db.load_engine_data [fun k => if k = "CODE" then ['E'] else []] =
      .ok [⟨['E'], none, none, none, 0, 0⟩] ∧
     import_to_db.load_aircraft_data [fun k => if k = "N-NUMBER" then ['N'] else []] =
      .ok [⟨['N'], none, none, none, none, none, none, none, none, none,
        none, none, none, none, none, none, none, none, none, none, none,
        none, none, none, none, none, none, none, none, none, none, none,
        none, none⟩] ∧
     py.int_of_string ['a', 'b', 'c'] = .error "ValueError") := by
  refine ⟨?_, ?_, ?_, ?_, rfl, rfl, rfl, rfl⟩
  · intro s h
    simp only [import_to_db.int_or_zero, h, if_pos]
  · intro s h
    simp only [import_to_db.parse_year_mfr, h, if_pos]
  · intro s h
    simp only [import_to_db.int_or_zero, if_neg h]
  · intro s h
    simp only [import_to_db.parse_year_mfr, if_neg h]

/-- C4 (witness): the amended statements applied at concrete fields: a
blank engine-count field stores 0, a blank year field stores null, and a
numeric field `"42"` parses as 42. -/
theorem c4_absent_int_fields_amended_witness :
    import_to_db.int_or_zero [' ', ' '] = .ok 0 ∧
    import_to_db.parse_year_mfr [' '] = .ok none ∧
    import_to_db.int_or_zero [' ', '4', '2'] = .ok 42 ∧
    import_to_db.parse_year_mfr ['4', '2'] = .ok (some 42) :=
  ⟨c4_absent_int_fields_amended.1 [' ', ' '] (by decide),
   c4_absent_int_fields_amended.2.1 [' '] (by decide),
   (c4_absent_int_fields_amended.2.2.1 [' ', '4', '2'] (by decide)).trans rfl,
   (c4_absent_int_fields_amended.2.2.2.1 ['4', '2'] (by decide)).trans rfl⟩
